import Mathlib

/-
Verification of the full-text indexing/search subsystem and the smart-group
filtering engine of the paper-manager application.

The Rust sources embedded here:
  src-tauri/src/db/pdf_content.rs        (content store + FTS search queries)
  src-tauri/src/db/migrations.rs         (pdf_pages schema, FTS sync triggers)
  src-tauri/src/commands/pdf_indexing.rs (indexing orchestrator)
  src-tauri/src/commands/automation.rs   (smart-group filter engine)
  src-tauri/src/error.rs                 (AppError and its Display messages)

Modelling conventions:
  - SQLite tables are lists of row structures; the FTS5 external-content index
    pdf_pages_fts is a list of (rowid, text_content) entries maintained only by
    the pdf_pages_ai/ad/au triggers, exactly as in migrations.rs.
  - `INSERT OR REPLACE` follows SQLite semantics with the default
    `recursive_triggers = OFF` (connection.rs only sets `foreign_keys = ON`):
    rows removed by REPLACE conflict resolution do NOT fire delete triggers,
    and the newly inserted row receives a fresh rowid.
  - Generated values (UUIDs, timestamps) are passed as explicit arguments;
    external collaborators (the filesystem, pdf_extract, the FTS5 MATCH /
    bm25 / snippet engine) are explicit function parameters.
  - Rust i32 is modelled as Int; bm25's f64 rank is modelled as an abstract
    Int-valued ordering signal (the spec fixes no scale for it).
  - Character classes (alphanumeric / whitespace / lowercase) use Lean's
    ASCII-range Char functions as the common interpretation of Rust's
    Unicode-table classifiers; both the embedded code and the spec-side
    statements share these classifiers.
-/

namespace PaperManager

/-- A row of the `papers` table, restricted to the columns the indexing core
reads or writes (id, title, author, folder_id, pdf_path, is_indexed,
indexed_at). -/
structure PaperRow where
  id : String
  folder_id : String
  title : String
  author : String
  pdf_path : String
  is_indexed : Bool
  indexed_at : Option String
  deriving Repr, DecidableEq

/-- A row of the `pdf_pages` table (migrations.rs): id TEXT PRIMARY KEY,
paper_id, page_number, text_content, created_at, UNIQUE(paper_id, page_number),
plus the implicit SQLite rowid the FTS index is keyed on. -/
structure PageRow where
  rowid : Nat
  id : String
  paper_id : String
  page_number : Int
  text_content : String
  created_at : String
  deriving Repr, DecidableEq

/-- Database state touched by the indexing core: the `papers` table, the
`pdf_pages` table, the external-content FTS index `pdf_pages_fts`
(entries are (rowid, text_content) pairs), and the next fresh rowid. -/
structure Db where
  papers : List PaperRow
  pages : List PageRow
  fts : List (Nat × String)
  nextRowid : Nat
  deriving Repr, DecidableEq

/-- Mirror of models/pdf_content.rs `PdfPage`. -/
structure PdfPage where
  id : String
  paper_id : String
  page_number : Int
  text_content : String
  created_at : String
  deriving Repr, DecidableEq

/-- db/pdf_content.rs `insert_pdf_page`: runs
`INSERT OR REPLACE INTO pdf_pages (id, paper_id, page_number, text_content,
created_at) VALUES (?, ?, ?, ?, ?)`.  The generated UUID and timestamp are the
`id` and `now` arguments.  SQLite REPLACE conflict resolution first deletes any
row violating UNIQUE(paper_id, page_number); with the default
recursive_triggers = OFF this deletion fires no delete trigger.  The insert
then stores the row under a fresh rowid and the AFTER INSERT trigger
pdf_pages_ai appends (new.rowid, new.text_content) to pdf_pages_fts. -/
def insert_pdf_page (db : Db) (paper_id : String) (page_number : Int)
    (text_content : String) (id now : String) : Db × PdfPage :=
  let kept := db.pages.filter
    (fun r => !(r.paper_id == paper_id && r.page_number == page_number))
  let row : PageRow :=
    { rowid := db.nextRowid, id := id, paper_id := paper_id,
      page_number := page_number, text_content := text_content,
      created_at := now }
  ({ db with
      pages := kept ++ [row],
      fts := db.fts ++ [(db.nextRowid, text_content)],
      nextRowid := db.nextRowid + 1 },
   { id := id, paper_id := paper_id, page_number := page_number,
     text_content := text_content, created_at := now })

/-- db/pdf_content.rs `delete_pdf_pages`: runs
`DELETE FROM pdf_pages WHERE paper_id = ?`.  For every deleted row the AFTER
DELETE trigger pdf_pages_ad issues the FTS5 external-content 'delete' command
for old.rowid, removing that rowid's index entry. -/
def delete_pdf_pages (db : Db) (paper_id : String) : Db :=
  { db with
      pages := db.pages.filter (fun r => !(r.paper_id == paper_id)),
      fts := db.fts.filter (fun e =>
        !(db.pages.any (fun r => r.paper_id == paper_id && r.rowid == e.1))) }

/-- db/pdf_content.rs `mark_paper_indexed`: runs
`UPDATE papers SET is_indexed = 1, indexed_at = ? WHERE id = ?`. -/
def mark_paper_indexed (db : Db) (paper_id : String) (now : String) : Db :=
  { db with
      papers := db.papers.map (fun p =>
        if p.id == paper_id then
          { p with is_indexed := true, indexed_at := some now }
        else p) }

/-- The Index-Entry consistency invariant from the spec: every Page row has
exactly one index entry, keyed by its rowid and carrying exactly its text, and
no index entry exists without a matching Page row. -/
def ftsConsistent (db : Db) : Bool :=
  db.pages.all (fun r =>
    db.fts.filter (fun e => e.1 == r.rowid) == [(r.rowid, r.text_content)]) &&
  db.fts.all (fun e => db.pages.any (fun r => r.rowid == e.1))

/-- A one-paper database with no indexed content, used for concrete runs. -/
def dbP : Db :=
  { papers := [{ id := "p", folder_id := "f", title := "T", author := "A",
                 pdf_path := "x.pdf", is_indexed := false,
                 indexed_at := none }],
    pages := [], fts := [], nextRowid := 0 }

/-- C1: the full-text index stays consistent with pdf_pages across
insert_pdf_page / delete_pdf_pages — including when insert_pdf_page hits an
existing (paper_id, page_number) pair.  The final check: a second
insert_pdf_page for the same (paper_id, page_number) pair REPLACEs the old row
without firing the delete trigger (recursive_triggers is off), so the old
row's index entry survives as a dangling entry and consistency is lost; a
delete_pdf_pages afterwards removes only the live row's entry and the dangling
entry persists even with no pdf_pages rows left. -/
theorem C1_replace_desyncs_fts :
    ftsConsistent (insert_pdf_page dbP "p" 1 "alpha" "id1" "t1").1 = true ∧
    ftsConsistent
      (insert_pdf_page (insert_pdf_page dbP "p" 1 "alpha" "id1" "t1").1
        "p" 1 "beta" "id2" "t2").1 = false ∧
    (delete_pdf_pages
      (insert_pdf_page (insert_pdf_page dbP "p" 1 "alpha" "id1" "t1").1
        "p" 1 "beta" "id2" "t2").1 "p").pages = [] ∧
    (delete_pdf_pages
      (insert_pdf_page (insert_pdf_page dbP "p" 1 "alpha" "id1" "t1").1
        "p" 1 "beta" "id2" "t2").1 "p").fts = [(0, "alpha")] := by
  decide

/-- error.rs `AppError`, restricted to the variants the indexing core
produces. -/
inductive AppError where
  | Database : String → AppError
  | NotFound : String → AppError
  | Parse : String → AppError
  deriving Repr, DecidableEq

/-- The thiserror-derived Display messages of error.rs
("Database error: {0}", "Not found: {0}", "Parse error: {0}"), i.e. what
`e.to_string()` yields. -/
def AppError.toDisplay : AppError → String
  | .Database s => "Database error: " ++ s
  | .NotFound s => "Not found: " ++ s
  | .Parse s => "Parse error: " ++ s

/-- Mirror of models/pdf_content.rs `IndexingStatus`. -/
structure IndexingStatus where
  paper_id : String
  total_pages : Int
  indexed_pages : Int
  is_complete : Bool
  error : Option String
  deriving Repr, DecidableEq

/-- External collaborators and generated values for one `index_paper` run:
`fsExists` is `Path::exists`, `pdfExtract` is `pdf_extract::extract_text`
(returning the error's Display string on failure), and `newId` / `now` are the
UUID and timestamp generated during the run. -/
structure IndexEnv where
  fsExists : String → Bool
  pdfExtract : String → Except String String
  newId : String
  now : String

/-- commands/pdf_indexing.rs `extract_pdf_text`: errors with
NotFound("PDF not found: {path}") when the file is missing, otherwise maps an
extraction failure to Parse("Failed to extract PDF text: {e}"). -/
def extract_pdf_text (env : IndexEnv) (pdf_path : String) :
    Except AppError String :=
  if !env.fsExists pdf_path then
    .error (.NotFound ("PDF not found: " ++ pdf_path))
  else
    match env.pdfExtract pdf_path with
    | .ok t => .ok t
    | .error e => .error (.Parse ("Failed to extract PDF text: " ++ e))

/-- commands/pdf_indexing.rs `index_paper`: look up the paper's pdf_path
(NotFound error if the paper row is missing); report a non-fatal
"No PDF file attached" status on an empty path; report a non-fatal status
carrying the extraction error's Display string when extraction fails; on
success clear the paper's pages, insert the whole text as page 1, mark the
paper indexed, and return a complete status with one page. -/
def index_paper (env : IndexEnv) (db : Db) (paper_id : String) :
    Except AppError (Db × IndexingStatus) :=
  match db.papers.find? (fun p => p.id == paper_id) with
  | none => .error (.NotFound "Paper not found")
  | some paper =>
    if paper.pdf_path == "" then
      .ok (db, { paper_id := paper_id, total_pages := 0, indexed_pages := 0,
                 is_complete := false, error := some "No PDF file attached" })
    else
      match extract_pdf_text env paper.pdf_path with
      | .error e =>
          .ok (db, { paper_id := paper_id, total_pages := 0,
                     indexed_pages := 0, is_complete := false,
                     error := some e.toDisplay })
      | .ok text =>
          let db1 := delete_pdf_pages db paper_id
          let db2 := (insert_pdf_page db1 paper_id 1 text env.newId env.now).1
          let db3 := mark_paper_indexed db2 paper_id env.now
          .ok (db3, { paper_id := paper_id, total_pages := 1,
                      indexed_pages := 1, is_complete := true, error := none })

/-- db/pdf_content.rs `get_unindexed_papers`:
`SELECT id, pdf_path FROM papers WHERE COALESCE(is_indexed, 0) = 0 AND
pdf_path != ''`. -/
def get_unindexed_papers (db : Db) : List (String × String) :=
  (db.papers.filter (fun p => p.is_indexed == false && p.pdf_path != "")).map
    (fun p => (p.id, p.pdf_path))

/-- The `for (paper_id, _pdf_path) in papers` loop of `index_all_papers`:
each iteration calls `index_paper` (with that run's collaborators/generated
values, given by `envOf`) and pushes the returned status; a raised error
propagates via `?`. -/
def indexLoop (envOf : String → IndexEnv) (db : Db) :
    List (String × String) → Except AppError (Db × List IndexingStatus)
  | [] => .ok (db, [])
  | (pid, _) :: rest =>
    match index_paper (envOf pid) db pid with
    | .error e => .error e
    | .ok (db1, st) =>
      match indexLoop envOf db1 rest with
      | .error e => .error e
      | .ok (db2, sts) => .ok (db2, st :: sts)

/-- commands/pdf_indexing.rs `index_all_papers`: enumerate un-indexed papers,
then index each one in turn. -/
def index_all_papers (envOf : String → IndexEnv) (db : Db) :
    Except AppError (Db × List IndexingStatus) :=
  indexLoop envOf db (get_unindexed_papers db)

lemma filter_pid_of_removed (l : List PageRow) (g : PageRow → Bool)
    (pid : String) :
    ((l.filter (fun r => !(r.paper_id == pid))).filter g).filter
      (fun r => r.paper_id == pid) = [] := by
  rw [List.filter_eq_nil_iff]
  intro a ha
  have h1 := (List.mem_filter.mp ha).1
  have h2 := (List.mem_filter.mp h1).2
  simp only [Bool.not_eq_true'] at h2
  simp [h2]

/-- Successful (is_complete) indexing leaves exactly the single freshly
inserted page-1 row as the paper's pdf_pages rows. -/
lemma index_paper_complete_filter (env : IndexEnv) (db : Db) (pid : String)
    (res : Db) (st : IndexingStatus)
    (h : index_paper env db pid = .ok (res, st)) (hc : st.is_complete = true) :
    ∃ text, res.pages.filter (fun r => r.paper_id == pid) =
      [{ rowid := db.nextRowid, id := env.newId, paper_id := pid,
         page_number := 1, text_content := text, created_at := env.now }] := by
  cases hfind : db.papers.find? (fun p => p.id == pid) with
  | none =>
    simp only [index_paper, hfind] at h
    cases h
  | some paper =>
    simp only [index_paper, hfind] at h
    by_cases hp : (paper.pdf_path == "") = true
    · rw [if_pos hp] at h
      injection h with h'
      injection h' with hdb hst
      rw [← hst] at hc
      simp at hc
    · rw [if_neg hp] at h
      cases hext : extract_pdf_text env paper.pdf_path with
      | error e =>
        rw [hext] at h
        injection h with h'
        injection h' with hdb hst
        rw [← hst] at hc
        simp at hc
      | ok text =>
        rw [hext] at h
        dsimp only at h
        injection h with h'
        injection h' with hdb hst
        refine ⟨text, ?_⟩
        rw [← hdb]
        simp only [mark_paper_indexed, insert_pdf_page, delete_pdf_pages]
        rw [List.filter_append, filter_pid_of_removed]
        simp

/-- C5: for a document with a readable PDF, index_paper run twice in a row
leaves exactly one Page row per page number for that document after the
second run: its pdf_pages rows collapse to the single page-1 row, because
each successful run deletes all of the document's pages before inserting. -/
theorem C5_reindex_no_duplicates (env1 env2 : IndexEnv) (db : Db)
    (pid : String) (db1 db2 : Db) (st1 st2 : IndexingStatus)
    (_h1 : index_paper env1 db pid = .ok (db1, st1))
    (_hc1 : st1.is_complete = true)
    (h2 : index_paper env2 db1 pid = .ok (db2, st2))
    (hc2 : st2.is_complete = true) :
    (db2.pages.filter (fun r => r.paper_id == pid)).map
      (fun r => r.page_number) = [1] := by
  obtain ⟨text, hfilter⟩ := index_paper_complete_filter env2 db1 pid db2 st2 h2 hc2
  rw [hfilter]
  simp

/-- Collaborators for a run whose extraction succeeds with text "hello". -/
def envOk : IndexEnv :=
  { fsExists := fun _ => true, pdfExtract := fun _ => .ok "hello",
    newId := "n", now := "t" }

/-- State of dbP after one successful envOk indexing run of paper "p". -/
def db1W : Db :=
  { papers := [{ id := "p", folder_id := "f", title := "T", author := "A",
                 pdf_path := "x.pdf", is_indexed := true,
                 indexed_at := some "t" }],
    pages := [{ rowid := 0, id := "n", paper_id := "p", page_number := 1,
                text_content := "hello", created_at := "t" }],
    fts := [(0, "hello")], nextRowid := 1 }

/-- State of db1W after a second successful envOk indexing run of "p". -/
def db2W : Db :=
  { papers := db1W.papers,
    pages := [{ rowid := 1, id := "n", paper_id := "p", page_number := 1,
                text_content := "hello", created_at := "t" }],
    fts := [(1, "hello")], nextRowid := 2 }

/-- Status returned by a successful single-page indexing run. -/
def stW : IndexingStatus :=
  { paper_id := "p", total_pages := 1, indexed_pages := 1,
    is_complete := true, error := none }

theorem C5_reindex_no_duplicates_witness :
    (db2W.pages.filter (fun r => r.paper_id == "p")).map
      (fun r => r.page_number) = [1] :=
  C5_reindex_no_duplicates envOk envOk dbP "p" db1W db2W stW stW
    rfl rfl rfl rfl

/-- C6: when extraction fails (missing file or unparseable PDF), index_paper
returns Ok with a status carrying the extraction error's Display message, and
the database — the document's Page rows, its indexed flag and its indexed
timestamp — is returned unchanged. -/
theorem C6_extraction_failure_nonfatal (env : IndexEnv) (db : Db)
    (pid : String) (paper : PaperRow) (e : AppError)
    (hfind : db.papers.find? (fun p => p.id == pid) = some paper)
    (hpath : paper.pdf_path ≠ "")
    (hext : extract_pdf_text env paper.pdf_path = .error e) :
    index_paper env db pid =
      .ok (db, { paper_id := pid, total_pages := 0, indexed_pages := 0,
                 is_complete := false, error := some e.toDisplay }) := by
  simp only [index_paper, hfind]
  rw [if_neg (by simp [hpath]), hext]

/-- Collaborators for a run whose PDF file does not exist. -/
def envMissing : IndexEnv :=
  { fsExists := fun _ => false, pdfExtract := fun _ => .error "bad",
    newId := "n", now := "t" }

theorem C6_extraction_failure_nonfatal_witness :
    index_paper envMissing dbP "p" =
      .ok (dbP, { paper_id := "p", total_pages := 0, indexed_pages := 0,
                  is_complete := false,
                  error := some "Not found: PDF not found: x.pdf" }) :=
  C6_extraction_failure_nonfatal envMissing dbP "p"
    { id := "p", folder_id := "f", title := "T", author := "A",
      pdf_path := "x.pdf", is_indexed := false, indexed_at := none }
    (.NotFound "PDF not found: x.pdf") rfl (by decide) rfl

/-- C7: for an existing document whose pdf_path is empty, index_paper returns
Ok with is_complete = false, total_pages = 0, indexed_pages = 0 and
error = some "No PDF file attached", and the database is returned
unchanged (no Page row written, no stored state changed). -/
theorem C7_no_pdf_attached (env : IndexEnv) (db : Db) (pid : String)
    (paper : PaperRow)
    (hfind : db.papers.find? (fun p => p.id == pid) = some paper)
    (hpath : paper.pdf_path = "") :
    index_paper env db pid =
      .ok (db, { paper_id := pid, total_pages := 0, indexed_pages := 0,
                 is_complete := false,
                 error := some "No PDF file attached" }) := by
  simp only [index_paper, hfind]
  rw [if_pos (by simp [hpath])]

/-- A one-paper database whose paper has an empty pdf_path. -/
def dbNoPdf : Db :=
  { papers := [{ id := "p", folder_id := "f", title := "T", author := "A",
                 pdf_path := "", is_indexed := false, indexed_at := none }],
    pages := [], fts := [], nextRowid := 0 }

theorem C7_no_pdf_attached_witness :
    index_paper envOk dbNoPdf "p" =
      .ok (dbNoPdf, { paper_id := "p", total_pages := 0, indexed_pages := 0,
                      is_complete := false,
                      error := some "No PDF file attached" }) :=
  C7_no_pdf_attached envOk dbNoPdf "p"
    { id := "p", folder_id := "f", title := "T", author := "A",
      pdf_path := "", is_indexed := false, indexed_at := none }
    rfl rfl

/-- index_paper never changes the id column of the papers table, and a
returned status carries the requested paper id. -/
lemma index_paper_preserves_ids (env : IndexEnv) (db : Db) (pid : String)
    (res : Db) (st : IndexingStatus)
    (h : index_paper env db pid = .ok (res, st)) :
    res.papers.map (fun p => p.id) = db.papers.map (fun p => p.id) ∧
      st.paper_id = pid := by
  cases hfind : db.papers.find? (fun p => p.id == pid) with
  | none =>
    simp only [index_paper, hfind] at h
    cases h
  | some paper =>
    simp only [index_paper, hfind] at h
    by_cases hp : (paper.pdf_path == "") = true
    · rw [if_pos hp] at h
      injection h with h'
      injection h' with hdb hst
      rw [← hdb, ← hst]
      exact ⟨rfl, rfl⟩
    · rw [if_neg hp] at h
      cases hext : extract_pdf_text env paper.pdf_path with
      | error e =>
        rw [hext] at h
        injection h with h'
        injection h' with hdb hst
        rw [← hdb, ← hst]
        exact ⟨rfl, rfl⟩
      | ok text =>
        rw [hext] at h
        dsimp only at h
        injection h with h'
        injection h' with hdb hst
        rw [← hdb, ← hst]
        refine ⟨?_, rfl⟩
        simp only [mark_paper_indexed, insert_pdf_page, delete_pdf_pages]
        rw [List.map_map]
        have hcomp : ((fun p : PaperRow => p.id) ∘ (fun p : PaperRow =>
            if p.id == pid then
              { p with is_indexed := true, indexed_at := some env.now }
            else p)) = fun p : PaperRow => p.id := by
          funext p
          simp only [Function.comp]
          split <;> rfl
        rw [hcomp]

/-- index_paper returns Ok (never raises) for any paper id present in the
papers table: extraction failures and missing PDFs are folded into the
status. -/
lemma index_paper_ok_of_mem (env : IndexEnv) (db : Db) (pid : String)
    (hmem : pid ∈ db.papers.map (fun p => p.id)) :
    ∃ res st, index_paper env db pid = .ok (res, st) := by
  cases hfind : db.papers.find? (fun p => p.id == pid) with
  | none =>
    exfalso
    rw [List.find?_eq_none] at hfind
    obtain ⟨p, hp, hpid⟩ := List.mem_map.mp hmem
    exact hfind p hp (by simp [hpid])
  | some paper =>
    simp only [index_paper, hfind]
    by_cases hp : (paper.pdf_path == "") = true
    · rw [if_pos hp]
      exact ⟨_, _, rfl⟩
    · rw [if_neg hp]
      cases hext : extract_pdf_text env paper.pdf_path with
      | error e => exact ⟨_, _, rfl⟩
      | ok text => exact ⟨_, _, rfl⟩

/-- The index_all_papers loop returns Ok with one status per listed document,
in order, whenever every listed document id is present in the papers table. -/
lemma indexLoop_ok (envOf : String → IndexEnv) :
    ∀ (l : List (String × String)) (db : Db),
      (∀ pr ∈ l, pr.1 ∈ db.papers.map (fun p => p.id)) →
      ∃ db2 sts, indexLoop envOf db l = .ok (db2, sts) ∧
        sts.map (fun s => s.paper_id) = l.map Prod.fst := by
  intro l
  induction l with
  | nil => exact fun db _ => ⟨db, [], rfl, rfl⟩
  | cons pr rest ih =>
    intro db hmem
    obtain ⟨pid, path⟩ := pr
    obtain ⟨res, st, hok⟩ :=
      index_paper_ok_of_mem (envOf pid) db pid
        (hmem (pid, path) (List.mem_cons_self _ _))
    obtain ⟨hids, hstpid⟩ := index_paper_preserves_ids _ _ _ _ _ hok
    obtain ⟨db2, sts, hloop, hmap⟩ := ih res (fun q hq => by
      rw [hids]
      exact hmem q (List.mem_cons_of_mem _ hq))
    refine ⟨db2, st :: sts, ?_, ?_⟩
    · simp only [indexLoop, hok, hloop]
    · simp [hstpid, hmap]

/-- C2: index_all_papers returns one IndexingStatus per enumerated un-indexed
document, in enumeration order, for every choice of collaborators — in
particular for extractors that fail on any subset of the documents, whose
failures are captured in the corresponding status rather than aborting the
batch. -/
theorem C2_index_all_one_status_per_document (envOf : String → IndexEnv)
    (db : Db) :
    ∃ db2 sts, index_all_papers envOf db = .ok (db2, sts) ∧
      sts.map (fun s => s.paper_id) = (get_unindexed_papers db).map Prod.fst := by
  apply indexLoop_ok
  intro pr hpr
  unfold get_unindexed_papers at hpr
  obtain ⟨p, hp, hpr'⟩ := List.mem_map.mp hpr
  refine List.mem_map.mpr ⟨p, (List.mem_filter.mp hp).1, ?_⟩
  rw [← hpr']

/-- The character class kept by `sanitize_fts_query`:
`c.is_alphanumeric() || c.is_whitespace() || *c == '-' || *c == '_'`. -/
def keepChar (c : Char) : Bool :=
  c.isAlphanum || c.isWhitespace || c == '-' || c == '_'

/-- Accumulator loop for splitting on whitespace: `acc` holds the current
word's characters in reverse. -/
def wordsAux : List Char → List Char → List (List Char)
  | [], acc => if acc.isEmpty then [] else [acc.reverse]
  | c :: cs, acc =>
    if c.isWhitespace then
      if acc.isEmpty then wordsAux cs [] else acc.reverse :: wordsAux cs []
    else wordsAux cs (c :: acc)

/-- Rust `str::split_whitespace` on a character list: maximal runs of
non-whitespace characters, with empty runs discarded. -/
def wordsOf (l : List Char) : List (List Char) :=
  wordsAux l []

/-- Rust `Vec::join(" ")`. -/
def joinSpace : List String → String
  | [] => ""
  | [w] => w
  | w :: ws => w ++ " " ++ joinSpace ws

/-- db/pdf_content.rs `sanitize_fts_query`: keep only alphanumeric,
whitespace, '-' and '_' characters, split on whitespace, wrap each word in
double quotes, join with single spaces. -/
def sanitize_fts_query (query : String) : String :=
  let cleaned := query.data.filter keepChar
  joinSpace ((wordsOf cleaned).map (fun w => "\"" ++ String.mk w ++ "\""))

/-- The SQLite collaborators of the search queries: FTS5 MATCH, the bm25 rank
(modelled as an Int-valued cost signal) and the snippet function, each applied
to the submitted match string and an index entry's text_content. -/
structure FtsEnv where
  matchQ : String → String → Bool
  rank : String → String → Int
  snippet : String → String → String

/-- Mirror of models/pdf_content.rs `FullTextSearchResult` (rank as Int). -/
structure FullTextSearchResult where
  paper_id : String
  paper_title : String
  paper_author : String
  page_number : Int
  snippet : String
  rank : Int
  deriving Repr, DecidableEq

/-- Mirror of models/pdf_content.rs `FullTextSearchQuery`. -/
structure FullTextSearchQuery where
  query : String
  limit : Option Int
  offset : Option Int
  folder_id : Option String
  deriving Repr, DecidableEq

/-- Mirror of models/pdf_content.rs `FullTextSearchResponse`. -/
structure FullTextSearchResponse where
  total : Int
  results : List FullTextSearchResult
  deriving Repr, DecidableEq

/-- SQLite `LIMIT ? OFFSET ?` semantics: a negative OFFSET acts as zero and a
negative LIMIT means no upper bound on the number of returned rows. -/
def paginate {α : Type} (l : List α) (limit offset : Int) : List α :=
  let l1 := l.drop offset.toNat
  if limit < 0 then l1 else l1.take limit.toNat

def insertByRank (x : FullTextSearchResult) :
    List FullTextSearchResult → List FullTextSearchResult
  | [] => [x]
  | y :: ys => if x.rank ≤ y.rank then x :: y :: ys else y :: insertByRank x ys

/-- `ORDER BY rank` (ascending; ties in an engine-chosen but fixed order). -/
def sortByRank : List FullTextSearchResult → List FullTextSearchResult
  | [] => []
  | x :: xs => insertByRank x (sortByRank xs)

/-- The rows of pdf_pages_fts matching the submitted query string. -/
def ftsMatchRows (env : FtsEnv) (db : Db) (sq : String) :
    List (Nat × String) :=
  db.fts.filter (fun e => env.matchQ sq e.2)

/-- The SELECT of search_all / search_with_folder before ORDER BY/LIMIT:
pdf_pages_fts MATCH ?, joined to pdf_pages on rowid and to papers on
paper_id, optionally restricted to `p.folder_id = ?`. -/
def joinRows (env : FtsEnv) (db : Db) (sq : String) (folder : Option String) :
    List FullTextSearchResult :=
  (ftsMatchRows env db sq).flatMap (fun e =>
    (db.pages.filter (fun r => r.rowid == e.1)).flatMap (fun r =>
      ((db.papers.filter (fun p => p.id == r.paper_id)).filter (fun p =>
          match folder with
          | none => true
          | some f => p.folder_id == f)).map (fun p =>
        { paper_id := r.paper_id, paper_title := p.title,
          paper_author := p.author, page_number := r.page_number,
          snippet := env.snippet sq e.2, rank := env.rank sq e.2 })))

/-- db/pdf_content.rs `search_with_folder`: ranked folder-scoped results with
LIMIT/OFFSET, plus a COUNT(*) over the same match-and-folder join predicate,
unrestricted by limit and offset. -/
def search_with_folder (env : FtsEnv) (db : Db)
    (search_query folder_id : String) (limit offset : Int) :
    List FullTextSearchResult × Int :=
  let rows := joinRows env db search_query (some folder_id)
  (paginate (sortByRank rows) limit offset, (rows.length : Int))

/-- db/pdf_content.rs `search_all`: ranked results with LIMIT/OFFSET over the
full join, plus `SELECT COUNT(*) FROM pdf_pages_fts WHERE pdf_pages_fts
MATCH ?` (no joins) as the total. -/
def search_all (env : FtsEnv) (db : Db) (search_query : String)
    (limit offset : Int) : List FullTextSearchResult × Int :=
  let rows := joinRows env db search_query none
  (paginate (sortByRank rows) limit offset,
   ((ftsMatchRows env db search_query).length : Int))

/-- db/pdf_content.rs `search_pdf_content`: limit defaults to 20 and is capped
at 100, offset defaults to 0; the sanitized query short-circuits to a
zero-result response when empty, and is otherwise submitted to
search_with_folder or search_all according to folder_id. -/
def search_pdf_content (env : FtsEnv) (db : Db)
    (query : FullTextSearchQuery) : FullTextSearchResponse :=
  let limit := min (query.limit.getD 20) 100
  let offset := query.offset.getD 0
  let search_query := sanitize_fts_query query.query
  if search_query == "" then { total := 0, results := [] }
  else
    match query.folder_id with
    | some folder_id =>
        let rt := search_with_folder env db search_query folder_id limit offset
        { total := rt.2, results := rt.1 }
    | none =>
        let rt := search_all env db search_query limit offset
        { total := rt.2, results := rt.1 }

lemma joinSpace_cons_length (x : String) (xs : List String) :
    x.length ≤ (joinSpace (x :: xs)).length := by
  cases xs with
  | nil => exact le_refl _
  | cons y ys =>
    simp only [joinSpace, String.length_append]
    omega

lemma sanitize_ne_empty (q : String) (w : List Char) (ws : List (List Char))
    (hw : wordsOf (q.data.filter keepChar) = w :: ws) :
    (sanitize_fts_query q == "") = false := by
  have hlen : 0 < (sanitize_fts_query q).length := by
    simp only [sanitize_fts_query, hw, List.map_cons]
    refine lt_of_lt_of_le ?_ (joinSpace_cons_length _ _)
    rw [String.length_append, String.length_append]
    have h1 : ("\"" : String).length = 1 := rfl
    omega
  rw [beq_eq_false_iff_ne]
  intro hcontra
  rw [hcontra] at hlen
  simp at hlen

/-- When the sanitized query is empty, search_pdf_content short-circuits to a
zero-result response. -/
lemma search_shortcircuit (env : FtsEnv) (db : Db) (q : FullTextSearchQuery)
    (hq : (sanitize_fts_query q.query == "") = true) :
    search_pdf_content env db q = { total := 0, results := [] } := by
  simp only [search_pdf_content]
  rw [if_pos hq]

/-- When the sanitized query is nonempty, search_pdf_content submits it to
search_with_folder / search_all with the defaulted, capped limit and the
defaulted offset. -/
lemma search_unfold (env : FtsEnv) (db : Db) (q : FullTextSearchQuery)
    (hne : (sanitize_fts_query q.query == "") = false) :
    search_pdf_content env db q =
      match q.folder_id with
      | some fid =>
          let rt := search_with_folder env db (sanitize_fts_query q.query) fid
            (min (q.limit.getD 20) 100) (q.offset.getD 0)
          { total := rt.2, results := rt.1 }
      | none =>
          let rt := search_all env db (sanitize_fts_query q.query)
            (min (q.limit.getD 20) 100) (q.offset.getD 0)
          { total := rt.2, results := rt.1 } := by
  simp only [search_pdf_content]
  rw [if_neg (by simp [hne])]

/-- C3: search sanitizes the raw query by stripping every character that is
not alphanumeric, whitespace, hyphen or underscore, splitting on whitespace,
and double-quoting each surviving token joined by spaces; if no token
survives, it answers total 0 with an empty result list for every database
state and every index collaborator (no index query is issued), and otherwise
the quoted-join string is exactly what is submitted to the index query. -/
theorem C3_sanitize_short_circuit (env : FtsEnv) (db : Db)
    (q : FullTextSearchQuery) :
    (sanitize_fts_query q.query =
      joinSpace ((wordsOf (q.query.data.filter keepChar)).map
        (fun w => "\"" ++ String.mk w ++ "\""))) ∧
    (wordsOf (q.query.data.filter keepChar) = [] →
      search_pdf_content env db q = { total := 0, results := [] }) ∧
    (∀ w ws, wordsOf (q.query.data.filter keepChar) = w :: ws →
      search_pdf_content env db q =
        match q.folder_id with
        | some fid =>
            let rt := search_with_folder env db (sanitize_fts_query q.query)
              fid (min (q.limit.getD 20) 100) (q.offset.getD 0)
            { total := rt.2, results := rt.1 }
        | none =>
            let rt := search_all env db (sanitize_fts_query q.query)
              (min (q.limit.getD 20) 100) (q.offset.getD 0)
            { total := rt.2, results := rt.1 }) := by
  refine ⟨rfl, ?_, ?_⟩
  · intro hw
    apply search_shortcircuit
    simp [sanitize_fts_query, hw, joinSpace]
  · intro w ws hw
    exact search_unfold env db q (sanitize_ne_empty q.query w ws hw)

/-- Trivial index collaborators: everything matches with rank 0. -/
def envAll : FtsEnv :=
  { matchQ := fun _ _ => true, rank := fun _ _ => 0,
    snippet := fun _ _ => "" }

theorem C3_sanitize_short_circuit_witness :
    search_pdf_content envAll dbP
      { query := "!?*.,", limit := none, offset := none, folder_id := none } =
      { total := 0, results := [] } :=
  (C3_sanitize_short_circuit envAll dbP
    { query := "!?*.,", limit := none, offset := none,
      folder_id := none }).2.1 (by decide)

lemma paginate_length_le {α : Type} (l : List α) (limit offset : Int)
    (h : 0 ≤ limit) : (paginate l limit offset).length ≤ limit.toNat := by
  simp only [paginate]
  rw [if_neg (not_lt.mpr h)]
  rw [List.length_take]
  exact min_le_left _ _

/-- A store holding 101 pages of one paper, all indexed with content "a". -/
def db101 : Db :=
  { papers := dbP.papers,
    pages := (List.range 101).map (fun i =>
      { rowid := i, id := "", paper_id := "p", page_number := (i : Int) + 1,
        text_content := "a", created_at := "" }),
    fts := (List.range 101).map (fun i => (i, "a")),
    nextRowid := 101 }

/-- C10 counterexample: with limit = some (-1) the capped limit min(-1, 100)
= -1 is handed to SQL LIMIT, which SQLite reads as "no upper bound", so a
search over a 101-page store returns 101 results — more than 100. -/
theorem C10_counterexample_negative_limit :
    ¬ (search_pdf_content envAll db101
        { query := "a", limit := some (-1), offset := none,
          folder_id := none }).results.length ≤ 100 := by
  decide

/-- C10 amended: when the limit field is absent the limit used is 20, when
present the limit used is min(value, 100), and when the offset field is
absent the offset used is 0 (first conjunct: the call behaves exactly as with
limit some (min (given or 20) 100) and offset some (given or 0)); whenever
the resulting limit is nonnegative — in particular for every absent or
nonnegative given limit — the number of returned results is at most 100.  A
present negative limit is forwarded as a negative SQL LIMIT, which means
unlimited, so only that case can exceed 100. -/
theorem C10_limit_offset_defaults (env : FtsEnv) (db : Db)
    (q : FullTextSearchQuery) :
    (search_pdf_content env db q =
      search_pdf_content env db
        { q with limit := some (min (q.limit.getD 20) 100),
                 offset := some (q.offset.getD 0) }) ∧
    (0 ≤ q.limit.getD 20 →
      (search_pdf_content env db q).results.length ≤ 100) := by
  constructor
  · cases q with
  | mk qq ql qo qf =>
    simp only [search_pdf_content, Option.getD_some]
    rw [show min (min (ql.getD 20) 100) 100 = min (ql.getD 20) 100 from
      min_eq_left (min_le_right _ _)]
  · intro h0
    by_cases hq : (sanitize_fts_query q.query == "") = true
    · rw [search_shortcircuit env db q hq]
      simp
    · have hne : (sanitize_fts_query q.query == "") = false := by
        revert hq
        cases sanitize_fts_query q.query == "" <;> simp
      rw [search_unfold env db q hne]
      have hlim0 : (0 : Int) ≤ min (q.limit.getD 20) 100 :=
        le_min h0 (by norm_num)
      have hlim100 : min (q.limit.getD 20) 100 ≤ 100 := min_le_right _ _
      cases q.folder_id with
      | some fid =>
        refine le_trans (paginate_length_le _ _ _ hlim0) ?_
        omega
      | none =>
        refine le_trans (paginate_length_le _ _ _ hlim0) ?_
        omega

theorem C10_limit_offset_defaults_witness :
    (search_pdf_content envAll db101
      { query := "a", limit := none, offset := none,
        folder_id := none }).results.length ≤ 100 :=
  (C10_limit_offset_defaults envAll db101
    { query := "a", limit := none, offset := none,
      folder_id := none }).2 (by decide)

lemma insertByRank_length (x : FullTextSearchResult) :
    ∀ l, (insertByRank x l).length = l.length + 1
  | [] => rfl
  | y :: ys => by
    simp only [insertByRank]
    split
    · rfl
    · rw [List.length_cons, insertByRank_length x ys, List.length_cons]

lemma sortByRank_length : ∀ l, (sortByRank l).length = l.length
  | [] => rfl
  | x :: xs => by
    simp only [sortByRank]
    rw [insertByRank_length, sortByRank_length xs, List.length_cons]

lemma sum_map_eq_length {α : Type} (l : List α) (f : α → Nat)
    (h : ∀ a ∈ l, f a = 1) : (l.map f).sum = l.length := by
  induction l with
  | nil => rfl
  | cons a as ih =>
    rw [List.map_cons, List.sum_cons, h a (List.mem_cons_self a as),
      ih (fun b hb => h b (List.mem_cons_of_mem a hb)), List.length_cons]
    omega

lemma filter_const_true {α : Type} (l : List α) (p : α → Bool)
    (hp : ∀ a, p a = true) : l.filter p = l := by
  induction l with
  | nil => rfl
  | cons a as ih =>
    rw [List.filter_cons, hp a]
    simp [ih]

/-- Under the schema integrity invariants (unique rowids so each index entry
joins exactly one pdf_pages row, and the papers foreign key so each page joins
exactly one paper), the unscoped count query over pdf_pages_fts alone agrees
with the row count of the joined result query. -/
lemma joinRows_none_length (env : FtsEnv) (db : Db) (sq : String)
    (hPage : ∀ e ∈ db.fts,
      (db.pages.filter (fun r => r.rowid == e.1)).length = 1)
    (hPaper : ∀ r ∈ db.pages,
      (db.papers.filter (fun p => p.id == r.paper_id)).length = 1) :
    (joinRows env db sq none).length = (ftsMatchRows env db sq).length := by
  unfold joinRows
  rw [List.length_flatMap]
  apply sum_map_eq_length
  intro e he
  have he' : e ∈ db.fts := (List.mem_filter.mp he).1
  simp only [Function.comp]
  rw [List.length_flatMap]
  refine Eq.trans (sum_map_eq_length _ _ ?_) (hPage e he')
  intro r hr
  have hr' : r ∈ db.pages := (List.mem_filter.mp hr).1
  simp only [Function.comp]
  rw [List.length_map, filter_const_true _ _ (fun a => rfl)]
  exact hPaper r hr'

/-- Summing page sizes of a complete limit/offset sweep over a fixed list
recovers the list's length. -/
lemma sweep_take_drop {α : Type} (L : Nat) (_hL : 0 < L) :
    ∀ (K : Nat) (l : List α), l.length ≤ K * L →
      ((List.range K).map (fun k => ((l.drop (k * L)).take L).length)).sum
        = l.length := by
  intro K
  induction K with
  | zero =>
    intro l hl
    simp only [Nat.zero_mul, Nat.le_zero] at hl
    simp [hl]
  | succ K ih =>
    intro l hl
    rw [List.range_succ_eq_map, List.map_cons, List.map_map, List.sum_cons]
    have hfun : ((fun k => ((l.drop (k * L)).take L).length) ∘ Nat.succ)
        = fun k => (((l.drop L).drop (k * L)).take L).length := by
      funext k
      simp only [Function.comp]
      rw [List.drop_drop]
      have hmul : Nat.succ k * L = L + k * L := by
        rw [Nat.succ_eq_add_one]
        ring
      rw [hmul]
    rw [hfun]
    rw [ih (l.drop L) (by
      rw [List.length_drop]
      have hexp : (K + 1) * L = K * L + L := by ring
      omega)]
    simp only [Nat.zero_mul, List.drop_zero, List.length_take,
      List.length_drop]
    omega

/-- The lengths of the result lists of a complete limit/offset sweep: the
k-th page queries offset k * (effective limit). -/
def sweepLengths (env : FtsEnv) (db : Db) (q0 : String) (fol : Option String)
    (L : Int) (K : Nat) : Nat :=
  ((List.range K).map (fun k =>
    (search_pdf_content env db
      { query := q0, limit := some L,
        offset := some ((k * (min L 100).toNat : Nat) : Int),
        folder_id := fol }).results.length)).sum

lemma paginate_stride_length {α : Type} (l : List α) (L : Int) (k : Nat)
    (hpos : (0 : Int) < L) :
    (paginate l L ((k * L.toNat : Nat) : Int)).length =
      ((l.drop (k * L.toNat)).take L.toNat).length := by
  simp only [paginate]
  rw [if_neg (not_lt.mpr (le_of_lt hpos))]
  have hoff : (((k * L.toNat : Nat) : Int)).toNat = k * L.toNat := by omega
  rw [hoff]

/-- C4: with the stored pages, papers and index entries held fixed and
satisfying the schema integrity invariants (each index entry has exactly one
pdf_pages row for its rowid; each page has exactly one papers row for its
paper_id), the sum of result counts over a complete limit/offset sweep of a
search — scoped to a folder or not — equals the total that search reports,
because the total is a count over the same predicate unrestricted by limit
and offset. -/
theorem C4_pagination_sum_equals_total (env : FtsEnv) (db : Db) (q0 : String)
    (fol : Option String) (L : Int) (K : Nat)
    (hL : 0 < L)
    (hPage : ∀ e ∈ db.fts,
      (db.pages.filter (fun r => r.rowid == e.1)).length = 1)
    (hPaper : ∀ r ∈ db.pages,
      (db.papers.filter (fun p => p.id == r.paper_id)).length = 1)
    (hK : (search_pdf_content env db
        { query := q0, limit := some L, offset := some 0,
          folder_id := fol }).total.toNat ≤ K * (min L 100).toNat) :
    sweepLengths env db q0 fol L K =
      (search_pdf_content env db
        { query := q0, limit := some L, offset := some 0,
          folder_id := fol }).total.toNat := by
  by_cases hq : (sanitize_fts_query q0 == "") = true
  · have hz : ∀ off : Option Int,
        search_pdf_content env db
          { query := q0, limit := some L, offset := off, folder_id := fol } =
          { total := 0, results := [] } :=
      fun off => search_shortcircuit env db _ hq
    have hsw : sweepLengths env db q0 fol L K = 0 := by
      unfold sweepLengths
      apply List.sum_eq_zero
      intro x hx
      obtain ⟨k, _, hx'⟩ := List.mem_map.mp hx
      rw [← hx', hz _]
      rfl
    rw [hsw, hz (some 0)]
    rfl
  · have hne : (sanitize_fts_query q0 == "") = false := by
      revert hq
      cases sanitize_fts_query q0 == "" <;> simp
    have hLeff : (0 : Int) < min L 100 := lt_min hL (by norm_num)
    have hstride : 0 < (min L 100).toNat := by omega
    cases fol with
    | some fid =>
      have hfun : (fun k : Nat =>
          (search_pdf_content env db
            { query := q0, limit := some L,
              offset := some ((k * (min L 100).toNat : Nat) : Int),
              folder_id := some fid }).results.length) =
          fun k : Nat =>
            (((sortByRank (joinRows env db (sanitize_fts_query q0)
              (some fid))).drop (k * (min L 100).toNat)).take
              ((min L 100).toNat)).length := by
        funext k
        rw [search_unfold env db _ hne]
        dsimp only
        simp only [search_with_folder, Option.getD_some]
        rw [paginate_stride_length _ _ _ hLeff]
      have htot : (search_pdf_content env db
          { query := q0, limit := some L, offset := some 0,
            folder_id := some fid }).total.toNat =
          (joinRows env db (sanitize_fts_query q0) (some fid)).length := by
        rw [search_unfold env db _ hne]
        dsimp only
        simp only [search_with_folder, Option.getD_some]
        omega
      unfold sweepLengths
      rw [hfun]
      rw [htot] at hK ⊢
      rw [← sortByRank_length (joinRows env db (sanitize_fts_query q0)
        (some fid))] at hK ⊢
      exact sweep_take_drop _ hstride K _ hK
    | none =>
      have hjoin := joinRows_none_length env db (sanitize_fts_query q0)
        hPage hPaper
      have hfun : (fun k : Nat =>
          (search_pdf_content env db
            { query := q0, limit := some L,
              offset := some ((k * (min L 100).toNat : Nat) : Int),
              folder_id := none }).results.length) =
          fun k : Nat =>
            (((sortByRank (joinRows env db (sanitize_fts_query q0)
              none)).drop (k * (min L 100).toNat)).take
              ((min L 100).toNat)).length := by
        funext k
        rw [search_unfold env db _ hne]
        dsimp only
        simp only [search_all, Option.getD_some]
        rw [paginate_stride_length _ _ _ hLeff]
      have htot : (search_pdf_content env db
          { query := q0, limit := some L, offset := some 0,
            folder_id := none }).total.toNat =
          (joinRows env db (sanitize_fts_query q0) none).length := by
        rw [search_unfold env db _ hne]
        dsimp only
        simp only [search_all, Option.getD_some]
        omega
      unfold sweepLengths
      rw [hfun]
      rw [htot] at hK ⊢
      rw [← sortByRank_length (joinRows env db (sanitize_fts_query q0)
        none)] at hK ⊢
      exact sweep_take_drop _ hstride K _ hK

theorem C4_pagination_sum_equals_total_witness :
    sweepLengths envAll db1W "hello" none 1 1 =
      (search_pdf_content envAll db1W
        { query := "hello", limit := some 1, offset := some 0,
          folder_id := none }).total.toNat :=
  C4_pagination_sum_equals_total envAll db1W "hello" none 1 1
    (by decide) (by decide) (by decide) (by decide)

/-- Mirror of models/paper.rs `Paper`, restricted to the fields the
smart-group filter engine reads. -/
structure Paper where
  id : String
  folder_id : String
  keywords : String
  author : String
  year : Int
  title : String
  publisher : String
  subject : String
  is_qualitative : Bool
  is_quantitative : Bool
  pdf_path : String
  tags : List String
  is_read : Bool
  importance : Int
  created_at : String
  last_analyzed_at : Option String
  deriving Repr, DecidableEq

/-- commands/automation.rs `SmartGroupCriteria` (ByYearRange's fields are the
Rust struct's start and end). -/
inductive SmartGroupCriteria where
  | ByYear : Int → SmartGroupCriteria
  | ByYearRange : Int → Int → SmartGroupCriteria
  | ByAuthor : String → SmartGroupCriteria
  | ByKeyword : String → SmartGroupCriteria
  | ByTag : String → SmartGroupCriteria
  | ByReadStatus : Bool → SmartGroupCriteria
  | ByImportance : Int → SmartGroupCriteria
  | ByResearchType : Bool → Bool → SmartGroupCriteria
  | RecentlyAdded : Int → SmartGroupCriteria
  | RecentlyAnalyzed : Int → SmartGroupCriteria
  | ByPublisher : String → SmartGroupCriteria
  | BySubject : String → SmartGroupCriteria
  | NoPdf : SmartGroupCriteria
  | HasPdf : SmartGroupCriteria
  | Unread : SmartGroupCriteria
  | Favorites : SmartGroupCriteria
  deriving Repr, DecidableEq

/-- commands/automation.rs `SmartGroup`. -/
structure SmartGroup where
  id : String
  name : String
  criteria : List SmartGroupCriteria
  match_mode : String
  icon : Option String
  color : Option String
  created_at : String
  deriving Repr, DecidableEq

/-- Rust `str::to_lowercase` (shared ASCII-range interpretation). -/
def toLowerStr (s : String) : String :=
  String.mk (s.data.map Char.toLower)

def isPrefixList : List Char → List Char → Bool
  | [], _ => true
  | _ :: _, [] => false
  | a :: as, b :: bs => a == b && isPrefixList as bs

def isInfixList (nee : List Char) : List Char → Bool
  | [] => nee.isEmpty
  | b :: bs => isPrefixList nee (b :: bs) || isInfixList nee bs

/-- Rust `str::contains(&str)`: substring test. -/
def strContains (hay nee : String) : Bool :=
  isInfixList nee.data hay.data

/-- Parse a nonempty all-digit character run as a natural number. -/
def digitsToNat (l : List Char) : Option Nat :=
  if l.isEmpty then none
  else
    l.foldl (fun acc c =>
      match acc with
      | none => none
      | some n => if c.isDigit then some (n * 10 + (c.toNat - 48)) else none)
      (some 0)

/-- Split a character list on a separator character (keeping empty runs, as
the field layout check rejects them anyway). -/
def splitOnChar (sep : Char) : List Char → List (List Char)
  | [] => [[]]
  | c :: cs =>
    if c == sep then [] :: splitOnChar sep cs
    else
      match splitOnChar sep cs with
      | [] => [[c]]
      | w :: ws => (c :: w) :: ws

def isLeapYear (y : Int) : Bool :=
  y % 4 == 0 && (y % 100 != 0 || y % 400 == 0)

def daysInMonth (y : Int) (mo : Nat) : Nat :=
  match mo with
  | 1 => 31
  | 2 => if isLeapYear y then 29 else 28
  | 3 => 31
  | 4 => 30
  | 5 => 31
  | 6 => 30
  | 7 => 31
  | 8 => 31
  | 9 => 30
  | 10 => 31
  | 11 => 30
  | 12 => 31
  | _ => 0

/-- Days since 1970-01-01 of a proleptic-Gregorian civil date (Howard
Hinnant's days_from_civil, with C-style truncating division as in the
chrono implementation's range). -/
def daysFromCivil (y mo d : Int) : Int :=
  let y1 := if mo ≤ 2 then y - 1 else y
  let era := Int.tdiv (if 0 ≤ y1 then y1 else y1 - 399) 400
  let yoe := y1 - era * 400
  let mp := if 2 < mo then mo - 3 else mo + 9
  let doy := Int.tdiv (153 * mp + 2) 5 + d - 1
  let doe := yoe * 365 + Int.tdiv yoe 4 - Int.tdiv yoe 100 + doy
  era * 146097 + doe - 719468

/-- chrono `NaiveDateTime::parse_from_str(s, "%Y-%m-%d %H:%M:%S")`, returned
as seconds since the 1970 epoch (the representation used to take signed
duration differences).  Returns none on any malformed or out-of-range
field, as the parse does. -/
def parseNaiveDateTime (s : String) : Option Int :=
  match splitOnChar ' ' s.data with
  | [datePart, timePart] =>
    match splitOnChar '-' datePart, splitOnChar ':' timePart with
    | [ys, ms, ds], [hs, mins, ss] =>
      match digitsToNat ys, digitsToNat ms, digitsToNat ds,
          digitsToNat hs, digitsToNat mins, digitsToNat ss with
      | some y, some mo, some d, some h, some mi, some se =>
        if 1 ≤ mo ∧ mo ≤ 12 ∧ 1 ≤ d ∧ d ≤ daysInMonth (y : Int) mo ∧
            h ≤ 23 ∧ mi ≤ 59 ∧ se ≤ 59 then
          some (daysFromCivil (y : Int) (mo : Int) (d : Int) * 86400 +
            (h : Int) * 3600 + (mi : Int) * 60 + (se : Int))
        else none
      | _, _, _, _, _, _ => none
    | _, _ => none
  | _ => none

/-- chrono `Duration::num_days` of `now - then_`: whole days, truncated
toward zero as in the Rust implementation. -/
def signedDaysSince (now then_ : Int) : Int :=
  Int.tdiv (now - then_) 86400

/-- commands/automation.rs `matches_criteria`, with the current time passed
explicitly as epoch seconds (the code reads `chrono::Utc::now()`). -/
def matches_criteria (now : Int) (paper : Paper) :
    SmartGroupCriteria → Bool
  | .ByYear year => paper.year == year
  | .ByYearRange start stop =>
      decide (start ≤ paper.year) && decide (paper.year ≤ stop)
  | .ByAuthor author =>
      strContains (toLowerStr paper.author) (toLowerStr author)
  | .ByKeyword keyword =>
      strContains (toLowerStr paper.keywords) (toLowerStr keyword)
  | .ByTag tag => paper.tags.any (fun t => toLowerStr t == toLowerStr tag)
  | .ByReadStatus is_read => paper.is_read == is_read
  | .ByImportance importance => paper.importance == importance
  | .ByResearchType q qn =>
      paper.is_qualitative == q && paper.is_quantitative == qn
  | .RecentlyAdded days =>
      match parseNaiveDateTime paper.created_at with
      | some created => decide (signedDaysSince now created ≤ days)
      | none => false
  | .RecentlyAnalyzed days =>
      match paper.last_analyzed_at with
      | some analyzed_at =>
        match parseNaiveDateTime analyzed_at with
        | some analyzed => decide (signedDaysSince now analyzed ≤ days)
        | none => false
      | none => false
  | .ByPublisher publisher =>
      strContains (toLowerStr paper.publisher) (toLowerStr publisher)
  | .BySubject subject =>
      strContains (toLowerStr paper.subject) (toLowerStr subject)
  | .NoPdf => paper.pdf_path == ""
  | .HasPdf => paper.pdf_path != ""
  | .Unread => !paper.is_read
  | .Favorites => decide (4 ≤ paper.importance)

/-- commands/automation.rs `get_smart_group_papers`: fetch all papers, return
them unfiltered for an empty criteria list, otherwise keep the papers whose
per-criterion match results combine under the mode ("or" means any, anything
else means all; absent mode defaults to "and"). -/
def get_smart_group_papers (now : Int) (all_papers : List Paper)
    (criteria : List SmartGroupCriteria) (match_mode : Option String) :
    List Paper :=
  let mode := match_mode.getD "and"
  if criteria.isEmpty then all_papers
  else
    all_papers.filter (fun paper =>
      let results := criteria.map (fun c => matches_criteria now paper c)
      if mode == "or" then results.any (fun m => m)
      else results.all (fun m => m))

/-- commands/automation.rs `get_predefined_smart_groups`, parameterised by
the generated timestamp string and the current year the code derives from
`chrono::Utc::now()`. -/
def get_predefined_smart_groups (now : String) (current_year : Int) :
    List SmartGroup :=
  [{ id := "unread", name := "Unread Papers",
     criteria := [SmartGroupCriteria.Unread], match_mode := "and",
     icon := some "book-open", color := some "#3b82f6", created_at := now },
   { id := "favorites", name := "Favorites",
     criteria := [SmartGroupCriteria.Favorites], match_mode := "and",
     icon := some "star", color := some "#eab308", created_at := now },
   { id := "recent-week", name := "Added This Week",
     criteria := [SmartGroupCriteria.RecentlyAdded 7], match_mode := "and",
     icon := some "clock", color := some "#22c55e", created_at := now },
   { id := "recent-month", name := "Added This Month",
     criteria := [SmartGroupCriteria.RecentlyAdded 30], match_mode := "and",
     icon := some "calendar", color := some "#06b6d4", created_at := now },
   { id := "this-year", name := "Published in " ++ toString current_year,
     criteria := [SmartGroupCriteria.ByYear current_year],
     match_mode := "and", icon := some "calendar-days",
     color := some "#8b5cf6", created_at := now },
   { id := "no-pdf", name := "Missing PDFs",
     criteria := [SmartGroupCriteria.NoPdf], match_mode := "and",
     icon := some "file-x", color := some "#ef4444", created_at := now },
   { id := "qualitative", name := "Qualitative Research",
     criteria := [SmartGroupCriteria.ByResearchType true false],
     match_mode := "and", icon := some "message-square",
     color := some "#f97316", created_at := now },
   { id := "quantitative", name := "Quantitative Research",
     criteria := [SmartGroupCriteria.ByResearchType false true],
     match_mode := "and", icon := some "bar-chart",
     color := some "#14b8a6", created_at := now },
   { id := "mixed-methods", name := "Mixed Methods",
     criteria := [SmartGroupCriteria.ByResearchType true true],
     match_mode := "and", icon := some "git-merge",
     color := some "#ec4899", created_at := now }]

lemma all_map_id {α : Type} (l : List α) (f : α → Bool) :
    ((l.map f).all (fun m => m)) = l.all f := by
  induction l with
  | nil => rfl
  | cons a as ih => simp [List.all_cons, ih]

lemma any_map_id {α : Type} (l : List α) (f : α → Bool) :
    ((l.map f).any (fun m => m)) = l.any f := by
  induction l with
  | nil => rfl
  | cons a as ih => simp [List.any_cons, ih]

/-- With a nonempty criteria list, get_smart_group_papers is a plain filter
combining the per-criterion predicates with any/all according to the mode. -/
lemma get_smart_group_papers_filter (now : Int) (papers : List Paper)
    (criteria : List SmartGroupCriteria) (mode : Option String)
    (hne : criteria ≠ []) :
    get_smart_group_papers now papers criteria mode =
      papers.filter (fun paper =>
        if (mode.getD "and") == "or" then
          criteria.any (fun c => matches_criteria now paper c)
        else criteria.all (fun c => matches_criteria now paper c)) := by
  unfold get_smart_group_papers
  rw [if_neg (by simp [hne])]
  congr 1
  funext paper
  by_cases hm : ((mode.getD "and") == "or") = true
  · rw [if_pos hm, if_pos hm, any_map_id]
  · rw [if_neg hm, if_neg hm, all_map_id]

/-- C8: under AND mode a paper is returned iff every criterion's predicate
holds of it; under OR mode (with a nonempty criteria list, the case the
engine's empty-list early return does not preempt) iff at least one
criterion's predicate holds; and with an empty criteria list every paper is
returned under either mode. -/
theorem C8_and_or_empty_semantics (now : Int) (papers : List Paper)
    (criteria : List SmartGroupCriteria) (mode : Option String) (p : Paper) :
    (p ∈ get_smart_group_papers now papers criteria (some "and") ↔
      p ∈ papers ∧ ∀ c ∈ criteria, matches_criteria now p c = true) ∧
    (criteria ≠ [] →
      (p ∈ get_smart_group_papers now papers criteria (some "or") ↔
        p ∈ papers ∧ ∃ c ∈ criteria, matches_criteria now p c = true)) ∧
    get_smart_group_papers now papers [] mode = papers := by
  refine ⟨?_, ?_, ?_⟩
  · cases hc : criteria with
    | nil => simp [get_smart_group_papers]
    | cons c0 cs =>
      rw [get_smart_group_papers_filter now papers (c0 :: cs) (some "and")
        (by simp)]
      have hmode : (("and" : String) == "or") = false := by decide
      simp [List.mem_filter, hmode, List.all_eq_true]
  · intro hne
    rw [get_smart_group_papers_filter now papers criteria (some "or") hne]
    have hmode : (("or" : String) == "or") = true := by decide
    simp [List.mem_filter, hmode, List.any_eq_true]
  · simp [get_smart_group_papers]

/-- An unread, important paper used as a concrete filter input. -/
def paperA : Paper :=
  { id := "a", folder_id := "f", keywords := "nets", author := "Kim",
    year := 2023, title := "T1", publisher := "P", subject := "S",
    is_qualitative := false, is_quantitative := true, pdf_path := "a.pdf",
    tags := ["ml"], is_read := false, importance := 5,
    created_at := "2024-01-01 00:00:00", last_analyzed_at := none }

/-- A read, low-importance paper used as a concrete filter input. -/
def paperB : Paper :=
  { id := "b", folder_id := "f", keywords := "", author := "Lee",
    year := 2020, title := "T2", publisher := "P", subject := "S",
    is_qualitative := true, is_quantitative := false, pdf_path := "",
    tags := [], is_read := true, importance := 2,
    created_at := "2020-06-01 12:00:00", last_analyzed_at := none }

theorem C8_and_or_empty_semantics_witness :
    paperA ∈ get_smart_group_papers 0 [paperA, paperB]
      [SmartGroupCriteria.ByYear 2023, SmartGroupCriteria.Unread]
      (some "or") ↔
    paperA ∈ [paperA, paperB] ∧
      ∃ c ∈ [SmartGroupCriteria.ByYear 2023, SmartGroupCriteria.Unread],
        matches_criteria 0 paperA c = true :=
  (C8_and_or_empty_semantics 0 [paperA, paperB]
    [SmartGroupCriteria.ByYear 2023, SmartGroupCriteria.Unread]
    (some "or") paperA).2.1 (by decide)

/-- C9: the predefined "Favorites" smart group, evaluated with its own
criteria list and match mode, returns exactly the papers with
importance ≥ 4 — it is extensionally the direct importance ≥ 4 filter. -/
theorem C9_favorites_is_importance_filter (nowStr : String) (yr : Int)
    (now : Int) (papers : List Paper) (g : SmartGroup)
    (hg : g ∈ get_predefined_smart_groups nowStr yr)
    (hid : g.id = "favorites") :
    get_smart_group_papers now papers g.criteria (some g.match_mode) =
      papers.filter (fun p => decide (4 ≤ p.importance)) := by
  simp only [get_predefined_smart_groups, List.mem_cons,
    List.not_mem_nil, or_false] at hg
  rcases hg with rfl | rfl | rfl | rfl | rfl | rfl | rfl | rfl | rfl
  · simp at hid
  · rw [get_smart_group_papers_filter now papers _ _ (by simp)]
    congr 1
    funext p
    have hmode : (("and" : String) == "or") = false := by decide
    simp [hmode, matches_criteria]
  · simp at hid
  · simp at hid
  · simp at hid
  · simp at hid
  · simp at hid
  · simp at hid
  · simp at hid

theorem C9_favorites_is_importance_filter_witness :
    get_smart_group_papers 0 [paperA, paperB]
      [SmartGroupCriteria.Favorites] (some "and") =
      List.filter (fun p => decide (4 ≤ p.importance)) [paperA, paperB] :=
  C9_favorites_is_importance_filter "t" 2024 0 [paperA, paperB]
    { id := "favorites", name := "Favorites",
      criteria := [SmartGroupCriteria.Favorites], match_mode := "and",
      icon := some "star", color := some "#eab308", created_at := "t" }
    (by decide) rfl

end PaperManager
